import Mathlib

/-!
Verification of `src/tutorials/Working_with_fNIRS_data.py` against its
natural-language specification.

The script is a linear sequence of statements.  Its own constants
(`n_channels`, `sfreq`, channel names and types, filter cutoffs, epoch
window, rejection thresholds, event identifiers) are embedded directly
from the source.  The external library calls (`numpy`, `mne`) are not part
of `src/`, so their behaviour is modelled from the specification where a
claim depends on it; each such definition carries a doc comment starting
with `Modelled from the spec:`.
-/

namespace FNIRS

/-! ### Script constants (lines 49-54, 69-70, 78-79, 112-114 of the source) -/

/-- Line 49: `n_channels = 20  # number of physical channels`. -/
def n_channels : Nat := 20

/-- Line 50: `sfreq = 15.625` (exact as a rational: 125/8 Hz). -/
def sfreq : ℚ := 15625 / 1000

/-- Python's `'%.2d' % i`: decimal rendering of `i` zero-padded to width 2. -/
def fmt2d (i : Nat) : String :=
  if i < 10 then "0" ++ toString i else toString i

/-- Lines 51-52 (as intended once the dangling `+` is parenthesized):
`['HbO %.2d' % i for i in range(1, n_channels + 1)] +
 ['HbR %.2d' % i for i in range(1, n_channels + 1)]`. -/
def channel_names_fnirs : List String :=
  ((List.range n_channels).map (fun i => "HbO " ++ fmt2d (i + 1))) ++
  ((List.range n_channels).map (fun i => "HbR " ++ fmt2d (i + 1)))

/-- Line 53: `channel_names = channel_names_fnirs + ['Events']`. -/
def channel_names : List String := channel_names_fnirs ++ ["Events"]

/-- Line 54: `channel_types = ['hbo'] * n_channels + ['hbr'] * n_channels + ['stim']`. -/
def channel_types : List String :=
  List.replicate n_channels "hbo" ++ List.replicate n_channels "hbr" ++ ["stim"]

/-- The metadata record: channel names, channel types and sampling frequency,
as bound together by `mne.create_info` on lines 55-56. -/
structure Info where
  ch_names : List String
  ch_types : List String
  samplingFreq : ℚ
deriving DecidableEq

/-- Lines 55-56: `info = mne.create_info(ch_names=channel_names, sfreq=sfreq,
ch_types=channel_types, montage=None)`. -/
def info : Info :=
  { ch_names := channel_names, ch_types := channel_types, samplingFreq := sfreq }

/-- Line 78: `l_freq = 0.01`. -/
def l_freq : ℚ := 1 / 100

/-- Line 79: `h_freq = 2`. -/
def h_freq : ℚ := 2

/-- Line 112: `tmin = -2`. -/
def tmin : Int := -2

/-- Line 113: `tmax = 10`. -/
def tmax : Int := 10

/-- Line 114: `reject = dict(hbo=1.5e-5, hbr=1.5e-5)` (1.5e-5 = 3/200000). -/
def reject : List (String × ℚ) := [("hbo", 15 / 1000000), ("hbr", 15 / 1000000)]

/-- Lines 69-70: `event_id = dict(ISI=1, Biological=2, Rotation=4, Scrambled=8, Pause=16)`
written as a dict literal in the source. -/
def event_id : List (String × ℚ) :=
  [("ISI", 1), ("Biological", 2), ("Rotation", 4), ("Scrambled", 8), ("Pause", 16)]

/-- The event code selected on line 123 by `epochs['Biological']`. -/
def biologicalCode : ℚ := (event_id.lookup "Biological").getD 0

/-! ### Python physical-to-logical line joining (for claim C1)

Modelled from the Python Language Reference (sections 2.1.5-2.1.6), which
governs whether the source file is accepted by the parser: a physical line
continues the logical line only when an opening bracket is still unclosed
(implicit joining) or the physical line ends in a backslash (explicit
joining); a single-quoted string cannot span physical lines; `#` starts a
comment running to the end of the physical line.  A logical line whose last
token is the binary operator `+` cannot be completed, so the parser raises
`SyntaxError` on it. -/

/-- Single-quote character (ASCII 39). -/
def squoteChar : Char := Char.ofNat 39

/-- Scanner over the characters of one physical line.  State: current
bracket depth, the enclosing string quote if any, and the last
non-whitespace token character seen outside strings and comments (a closing
quote stands for a completed string literal).  Stops at a `#` comment. -/
def pyScan : List Char → Nat → Option Char → Option Char → Nat × Option Char
  | [], d, _, lt => (d, lt)
  | c :: cs, d, some q, lt =>
      if c = q then pyScan cs d none (some q) else pyScan cs d (some q) lt
  | c :: cs, d, none, lt =>
      if c = '#' then (d, lt)
      else if c = '(' ∨ c = '[' ∨ c = Char.ofNat 123 then pyScan cs (d + 1) none (some c)
      else if c = ')' ∨ c = ']' ∨ c = Char.ofNat 125 then pyScan cs (d - 1) none (some c)
      else if c = ' ' then pyScan cs d none lt
      else if c = squoteChar ∨ c = '"' then pyScan cs d (some c) lt
      else pyScan cs d none (some c)

/-- Whether some logical line of the given physical lines ends with the
dangling binary operator `+`, i.e. whether the Python parser rejects the
lines with a `SyntaxError`.  The fold carries the bracket depth and last
token across physical lines; a logical line ends when the depth is zero and
the physical line does not end in a backslash. -/
def hasDanglingPlus : List String → Nat → Option Char → Bool
  | [], _, _ => false
  | l :: ls, d, lt =>
      let r := pyScan l.toList d none lt
      let continued := 0 < r.1 ∨ l.toList.getLastD ' ' = '\\'
      if continued then hasDanglingPlus ls r.1 r.2
      else if r.2 = some '+' then true
      else hasDanglingPlus ls 0 none

/-- A single-quote as a one-character string, used to embed the source lines. -/
def sq : String := String.mk [squoteChar]

/-- Line 51 of the source, verbatim. -/
def line51 : String :=
  "channel_names_fnirs = [" ++ sq ++ "HbO %.2d" ++ sq ++
    " % i for i in range(1, n_channels + 1)] +"

/-- Line 52 of the source, verbatim. -/
def line52 : String :=
  "                      [" ++ sq ++ "HbR %.2d" ++ sq ++
    " % i for i in range(1, n_channels + 1)]"

/-- Line 89 of the source, verbatim. -/
def line89 : String :=
  "fig_title = " ++ sq ++ "fNIRS Raw Bandpass filtered [" ++ sq ++
    " + str(l_freq) + " ++ sq ++ " Hz, " ++ sq ++ " +"

/-- Line 90 of the source, verbatim. -/
def line90 : String :=
  "            str(h_freq) + " ++ sq ++ " Hz]" ++ sq

/-! ### The recording object and event detection -/

/-- Modelled from the spec: `mne.io.RawArray` (line 60) — "a derived
in-memory recording object binding the array to its metadata".  `data` is
the 2-D array, channels times samples. -/
structure Raw where
  meta : Info
  data : List (List ℚ)
deriving DecidableEq

/-- The row of the recording belonging to the channel with the given name
(the designated stimulus channel for `mne.find_events`). -/
def stimRow (raw : Raw) (stim_channel : String) : List ℚ :=
  match raw.meta.ch_names.indexOf? stim_channel with
  | some i => raw.data.getD i []
  | none => []

/-- Code-change triples along a time series: a triple `(i, prev, new)` for
every sample index `i` at which the code changes to a nonzero value.
`prev` is the value at the previous sample. -/
def transitions : ℚ → List ℚ → Nat → List (Nat × ℚ × ℚ)
  | _, [], _ => []
  | prev, v :: rest, i =>
      if v ≠ prev ∧ v ≠ 0 then (i, prev, v) :: transitions v rest (i + 1)
      else transitions v rest (i + 1)

/-- Modelled from the spec: `mne.find_events(raw_data, stim_channel='Events',
shortest_event=1)` (line 68) — "an events table of (sample-index,
previous-code, new-code) triples derived from the stimulus channel".  The
function reads the single channel named `stim_channel` and lists the
samples where its code changes. -/
def find_events (raw : Raw) (stim_channel : String) : List (Nat × ℚ × ℚ) :=
  match stimRow raw stim_channel with
  | [] => []
  | v0 :: rest => transitions v0 rest 1

/-! ### Epochs and the evoked average -/

/-- One epoch: a fixed-length window of the recording around one event. -/
structure Epoch where
  event_sample : Nat
  cond : ℚ
  data : List (List ℚ)
deriving DecidableEq

/-- Peak-to-peak amplitude of one channel's samples within an epoch. -/
def ptp (row : List ℚ) : ℚ :=
  row.foldl max (row.headD 0) - row.foldl min (row.headD 0)

/-- Modelled from the spec: the amplitude-based rejection test of
`mne.Epochs` — an epoch is rejected when some channel whose type carries a
threshold in the reject mapping has peak-to-peak amplitude exceeding that
threshold.  Channel types without an entry in the mapping are not
consulted. -/
def exceedsReject (types : List String) (rej : List (String × ℚ)) (ep : Epoch) : Bool :=
  (List.range ep.data.length).any (fun i =>
    match rej.lookup (types.getD i "") with
    | some th => decide (th < ptp (ep.data.getD i []))
    | none => false)

/-- Modelled from the spec: the slice of the recording for one event at
sample `s` — the window `[t0, t1]` seconds relative to the event, i.e.
samples `s + round(t0*sfreq)` through `s + round(t1*sfreq)`; `none` when the
window does not fit inside the recording. -/
def sliceEpoch (raw : Raw) (t0 t1 : Int) (s : Nat) (code : ℚ) : Option Epoch :=
  let a : Int := (s : Int) + round ((t0 : ℚ) * raw.meta.samplingFreq)
  let b : Int := (s : Int) + round ((t1 : ℚ) * raw.meta.samplingFreq)
  let n : Nat := (raw.data.headD []).length
  if 0 ≤ a ∧ b < (n : Int) then
    some { event_sample := s, cond := code,
           data := raw.data.map (fun row => (row.drop a.toNat).take (b + 1 - a).toNat) }
  else none

/-- Modelled from the spec: `mne.Epochs(raw_data, events, event_id, tmin, tmax,
..., reject=reject)` (lines 115-116) — "a windowed epochs collection sliced
around event timestamps, with a rejection threshold applied": one slice per
event that fits, then those exceeding a rejection threshold are dropped. -/
def mkEpochs (raw : Raw) (events : List (Nat × ℚ × ℚ)) (t0 t1 : Int)
    (rej : List (String × ℚ)) : List Epoch :=
  (events.filterMap (fun e => sliceEpoch raw t0 t1 e.1 e.2.2)).filter
    (fun ep => ! exceedsReject raw.meta.ch_types rej ep)

/-- Modelled from the spec: `epochs['Biological']` (line 123) keeps exactly
the epochs whose event code is the one `event_id` assigns to the named
condition. -/
def selectCond (eps : List Epoch) (code : ℚ) : List Epoch :=
  eps.filter (fun ep => ep.cond = code)

/-- Pointwise sum of two channels-times-samples matrices. -/
def addMat (a b : List (List ℚ)) : List (List ℚ) :=
  a.zipWith (fun r s => r.zipWith (fun x y => x + y) s) b

/-- Modelled from the spec: `.average()` (line 123) — "the average of
multiple epochs belonging to the same experimental condition": the
pointwise mean of the epochs' data matrices. -/
def avgEpochs (eps : List Epoch) : List (List ℚ) :=
  match eps with
  | [] => []
  | e :: rest =>
      ((rest.map Epoch.data).foldl addMat e.data).map
        (fun r => r.map (fun x => x / (eps.length : ℚ)))

/-- Line 123 of the script: `evoked_1 = epochs['Biological'].average()`. -/
def evokedOf (eps : List Epoch) : List (List ℚ) :=
  avgEpochs (selectCond eps biologicalCode)

/-! ### The script as a statement sequence

The module body (lines 25-124) is a straight-line sequence of assignments
and calls with no control flow and no `try` statement.  It is embedded as a
list of statements interpreted over a variable store, so that statement
order, in-place mutation of `raw_data` and the absence of any error handler
are visible in the model. -/

/-- A runtime value of one of the script's variables. -/
inductive Value
  | arr (a : List (List ℚ))
  | infoVal (i : Info)
  | rawVal (r : Raw)
  | eventsVal (t : List (Nat × ℚ × ℚ))
  | epochsVal (l : List Epoch)
  | evokedVal (m : List (List ℚ))
deriving DecidableEq

/-- The variable store of the running module. -/
def Store := List (String × Value)

/-- Read a variable (the script never reads an unbound name; a default is
returned for totality). -/
def getVar (st : Store) (x : String) : Value :=
  (List.lookup x st).getD (Value.arr [])

/-- Bind or rebind a variable. -/
def setVar (st : Store) (x : String) (v : Value) : Store :=
  (x, v) :: List.filter (fun p => p.1 ≠ x) st

/-- One statement of the module body.  Plot calls produce no value the
script keeps (the one `fig` binding on line 103 is never read), so they are
recorded as effect-only statements. -/
inductive Stmt
  | assignLoad (x path : String)
  | assignCreateInfo (x : String)
  | assignRawArray (x dataVar infoVar : String)
  | assignFindEvents (x rawVar stim : String)
  | plotEventsCall (eventsVar : String)
  | callFilter (rawVar : String) (lf hf : ℚ)
  | plotRawCall (rawVar eventsVar : String)
  | assignEpochs (x rawVar eventsVar : String) (t0 t1 : Int) (rej : List (String × ℚ))
  | plotEpochsCall (x : String)
  | assignAverage (x epochsVar : String) (code : ℚ)
  | plotEvokedCall (x : String)
deriving DecidableEq

/-- The module body, statement by statement (lines 25, 55, 60, 68, 72, 80,
92, 103, 115, 118, 123, 124 of the source, in source order). -/
def script : List Stmt :=
  [ .assignLoad "raw_ndarray" "/home/matteo/raw_ndarray.npy",
    .assignCreateInfo "info",
    .assignRawArray "raw_data" "raw_ndarray" "info",
    .assignFindEvents "events" "raw_data" "Events",
    .plotEventsCall "events",
    .callFilter "raw_data" l_freq h_freq,
    .plotRawCall "raw_data" "events",
    .plotRawCall "raw_data" "events",
    .assignEpochs "epochs" "raw_data" "events" tmin tmax reject,
    .plotEpochsCall "epochs",
    .assignAverage "evoked_1" "epochs" biologicalCode,
    .plotEvokedCall "evoked_1" ]

/-- Coerce a store value to an array, an info record, a raw object, an
events table or an epochs list, as each statement expects. -/
def asArr : Value → List (List ℚ)
  | .arr a => a
  | _ => []

def asInfo : Value → Info
  | .infoVal i => i
  | _ => { ch_names := [], ch_types := [], samplingFreq := 0 }

def asRaw : Value → Raw
  | .rawVal r => r
  | _ => { meta := { ch_names := [], ch_types := [], samplingFreq := 0 }, data := [] }

def asEvents : Value → List (Nat × ℚ × ℚ)
  | .eventsVal t => t
  | _ => []

def asEpochs : Value → List Epoch
  | .epochsVal l => l
  | _ => []

/-- Execute one statement.  `fs` gives the array a path loads (the
filesystem); `flt` is the library's band-pass filter on a recording,
abstract here because its numerics live outside `src/`.  `raw.filter(...)`
operates in place: the statement rebinds the same store entry. -/
def execStmt (fs : String → List (List ℚ)) (flt : ℚ → ℚ → Raw → Raw)
    (st : Store) : Stmt → Store
  | .assignLoad x path => setVar st x (.arr (fs path))
  | .assignCreateInfo x => setVar st x (.infoVal info)
  | .assignRawArray x dataVar infoVar =>
      setVar st x (.rawVal { meta := asInfo (getVar st infoVar),
                             data := asArr (getVar st dataVar) })
  | .assignFindEvents x rawVar stim =>
      setVar st x (.eventsVal (find_events (asRaw (getVar st rawVar)) stim))
  | .plotEventsCall _ => st
  | .callFilter rawVar lf hf =>
      setVar st rawVar (.rawVal (flt lf hf (asRaw (getVar st rawVar))))
  | .plotRawCall _ _ => st
  | .assignEpochs x rawVar eventsVar t0 t1 rej =>
      setVar st x (.epochsVal (mkEpochs (asRaw (getVar st rawVar))
        (asEvents (getVar st eventsVar)) t0 t1 rej))
  | .plotEpochsCall _ => st
  | .assignAverage x epochsVar code =>
      setVar st x (.evokedVal (avgEpochs (selectCond (asEpochs (getVar st epochsVar)) code)))
  | .plotEvokedCall _ => st

/-- Execute a statement list from a store. -/
def execList (fs : String → List (List ℚ)) (flt : ℚ → ℚ → Raw → Raw)
    (st : Store) : List Stmt → Store
  | [] => st
  | s :: rest => execList fs flt (execStmt fs flt st s) rest

/-! ### Operation trace and effects -/

/-- The operation kind a statement performs, for order and effect claims. -/
inductive Op
  | loadArray (path : String)
  | buildMetadata
  | constructRecording
  | detectEvents
  | bandpassFilter
  | plot
  | extractEpochs
  | averageCondition
deriving DecidableEq

/-- The operation each statement performs.  Every plotting call —
`mne.viz.plot_events`, `raw_data.plot`, `epochs.plot`, `evoked_1.plot` — is
a plot operation. -/
def opOf : Stmt → Op
  | .assignLoad _ path => .loadArray path
  | .assignCreateInfo _ => .buildMetadata
  | .assignRawArray _ _ _ => .constructRecording
  | .assignFindEvents _ _ _ => .detectEvents
  | .plotEventsCall _ => .plot
  | .callFilter _ _ _ => .bandpassFilter
  | .plotRawCall _ _ => .plot
  | .assignEpochs _ _ _ _ _ _ => .extractEpochs
  | .plotEpochsCall _ => .plot
  | .assignAverage _ _ _ => .averageCondition
  | .plotEvokedCall _ => .plot

/-- The operation trace of the module body. -/
def scriptTrace : List Op := script.map opOf

/-- Whether an operation is a plot. -/
def isPlot : Op → Bool
  | .plot => true
  | _ => false

/-- Modelled from the spec: the files an operation reads — "no resource
acquisition beyond a single file read of a pre-existing array on disk";
`np.load` reads its path, every other call (metadata construction, event
detection, filtering, epoching, averaging, window plotting) touches no
file. -/
def fsReads : Op → List String
  | .loadArray path => [path]
  | _ => []

/-- Modelled from the spec: the files an operation writes — "no output file
format is defined by this script", so none. -/
def fsWrites : Op → List String
  | _ => []

/-- Modelled from the spec: running the module under a library semantics
`sem` in which each call either succeeds or raises an error.  The module
body contains no `try` statement, so execution is the plain left-to-right
sequence in the error monad: the first error aborts the run. -/
def runOps (sem : Op → Except String Unit) : List Op → Except String Unit
  | [] => .ok ()
  | o :: rest =>
      match sem o with
      | .ok _ => runOps sem rest
      | .error e => .error e

/-! ### Concrete instances used by the witnesses -/

/-- A recording with one `hbo` channel and one `Events` channel. -/
def c4RawA : Raw :=
  { meta := { ch_names := ["HbO 01", "Events"], ch_types := ["hbo", "stim"],
              samplingFreq := sfreq },
    data := [[1, 2, 3, 4], [0, 2, 2, 0]] }

/-- The same recording with completely different `hbo` data. -/
def c4RawB : Raw :=
  { meta := { ch_names := ["HbO 01", "Events"], ch_types := ["hbo", "stim"],
              samplingFreq := sfreq },
    data := [[9, 9, 9, 9], [0, 2, 2, 0]] }

/-- A two-channel recording at 1 Hz with one event at sample 2, long enough
for the 13-sample window `[-2, 10]` seconds to fit. -/
def c5Raw : Raw :=
  { meta := { ch_names := ["HbO 01", "Events"], ch_types := ["hbo", "stim"],
              samplingFreq := 1 },
    data := [List.replicate 13 0, [0, 0, 2, 0, 0, 0, 0, 0, 0, 0, 0, 0, 0]] }

def c5Events : List (Nat × ℚ × ℚ) := [(2, 0, 2)]

def c5Ep : Epoch :=
  { event_sample := 2, cond := 2,
    data := [List.replicate 13 0, [0, 0, 2, 0, 0, 0, 0, 0, 0, 0, 0, 0, 0]] }

def c6Eps : List Epoch := [{ event_sample := 0, cond := 2, data := [[1, 3]] }]

def c6Extra : Epoch := { event_sample := 5, cond := 4, data := [[100, 100]] }


/-- A library semantics for the C8 witness: loading the array fails (the
missing-file case of the spec), every other call succeeds. -/
def failSem : Op → Except String Unit
  | .loadArray _ => .error "FileNotFoundError"
  | _ => .ok ()

/-- Two epochs over channel types `["hbo", "stim"]` agreeing on the `hbo`
channel and differing wildly on the stimulus channel, for the C9 witness. -/
def c9Ep1 : Epoch := { event_sample := 0, cond := 1, data := [[0, 0], [0, 100]] }

def c9Ep2 : Epoch := { event_sample := 0, cond := 1, data := [[0, 0], [50, 0]] }

/-- A concrete filesystem for the C10 witness: every path holds one small
array. -/
def c10fs : String → List (List ℚ) := fun _ => [[0, 0, 0], [0, 2, 0]]

/-- A concrete stand-in for the library's band-pass filter: the identity on
the recording. -/
def c10flt : ℚ → ℚ → Raw → Raw := fun _ _ r => r

/-! ## Theorems -/

/-- C1: the claim says the assignments on lines 51-52 and 89-90 — each an
expression ending in `+` continued on the next physical line with no
backslash and no enclosing parentheses — parse successfully, so execution
can reach later steps.  In fact Python's line-joining rules end both
logical lines at the dangling `+`, so the parser raises `SyntaxError` and
execution never starts: the scanner reports the dangling operator on both
pairs of lines. -/
theorem C1_parser_rejects_module :
    hasDanglingPlus [line51, line52] 0 none = true ∧
    hasDanglingPlus [line89, line90] 0 none = true := by decide

/-- Sanity check for the scanner: wrapping the same right-hand side in
parentheses (an unclosed bracket at the end of line 51) makes the second
physical line continue the logical line, and the dangling `+` disappears. -/
theorem danglingPlus_fixed_by_parens :
    hasDanglingPlus ["channel_names_fnirs = ([" ++ sq ++ "HbO" ++ sq ++ "] +",
                     "                       [" ++ sq ++ "HbR" ++ sq ++ "])"] 0 none
      = false := by decide

/-- C2 counterexample: the claim orders the steps as load, metadata,
construct, detect events, filter, plot, epoch, average, plot, with no step
preceding one listed before it and each step at most the stated number of
times.  The script violates this: position 4 of the trace is a plot (the
`mne.viz.plot_events` call on line 72) and the band-pass filter only comes
at position 5, so a plot precedes the filter; moreover the trace holds five
plot operations, not two. -/
theorem C2_counterexample :
    isPlot (scriptTrace.getD 4 Op.buildMetadata) = true ∧
    scriptTrace.getD 5 Op.buildMetadata = Op.bandpassFilter ∧
    (scriptTrace.filter isPlot).length = 5 := by decide

/-- C2 (amended): the script's operation trace is exactly load array, build
metadata, construct recording, detect events, plot (events timeline),
band-pass filter, plot, plot, extract epochs, plot, average one condition,
plot; in particular the seven non-plot steps occur exactly once each, in
the claimed relative order. -/
theorem C2_amended_trace :
    scriptTrace =
      [Op.loadArray "/home/matteo/raw_ndarray.npy", Op.buildMetadata,
       Op.constructRecording, Op.detectEvents, Op.plot, Op.bandpassFilter,
       Op.plot, Op.plot, Op.extractEpochs, Op.plot, Op.averageCondition,
       Op.plot] ∧
    scriptTrace.filter (fun o => ! isPlot o) =
      [Op.loadArray "/home/matteo/raw_ndarray.npy", Op.buildMetadata,
       Op.constructRecording, Op.detectEvents, Op.bandpassFilter,
       Op.extractEpochs, Op.averageCondition] := by decide

/-- C3: the metadata record built on lines 49-56 describes exactly
2*n_channels + 1 = 41 channels, its name and type lists have equal length,
the types are 20 `hbo` channels, then 20 `hbr` channels, then one `stim`
channel, and the sampling frequency is 15.625 Hz (= 125/8). -/
theorem C3_info_record :
    info.ch_names.length = 2 * n_channels + 1 ∧
    info.ch_names.length = 41 ∧
    info.ch_types.length = info.ch_names.length ∧
    info.ch_types = List.replicate 20 "hbo" ++ List.replicate 20 "hbr" ++ ["stim"] ∧
    info.samplingFreq = 125 / 8 := by
  refine ⟨by decide, by decide, by decide, by decide, ?_⟩
  show sfreq = 125 / 8
  norm_num [sfreq]

/-- C7: the script's only filesystem interaction is the single read of the
pre-existing array `/home/matteo/raw_ndarray.npy` on line 25; no operation
of the trace writes any file. -/
theorem C7_filesystem_frame :
    (scriptTrace.map fsReads).flatten = ["/home/matteo/raw_ndarray.npy"] ∧
    (scriptTrace.map fsWrites).flatten = [] := by decide

/-- C4: the events table is derived from the channel designated as the
stimulus channel (`'Events'`) and from no other channel: two recordings
whose `Events` channel carries the same data — however much every other
channel differs — yield the same events table. -/
theorem C4_events_from_stim_channel_only (r r2 : Raw)
    (h : stimRow r "Events" = stimRow r2 "Events") :
    find_events r "Events" = find_events r2 "Events" := by
  unfold find_events
  rw [h]

/-- Witness for C4 at two concrete recordings agreeing only on `Events`. -/
theorem C4_witness :
    stimRow c4RawA "Events" = stimRow c4RawB "Events" ∧
    find_events c4RawA "Events" = find_events c4RawB "Events" :=
  ⟨by decide, C4_events_from_stim_channel_only c4RawA c4RawB (by decide)⟩

/-- C5: the epochs collection consists of windows of the recording sliced
over `[tmin, tmax] = [-2, 10]` seconds around the detected events, with the
amplitude rejection applied: every member of the collection is such a slice
for some event and does not exceed the peak-to-peak rejection thresholds,
and every slice that exceeds them is dropped from the collection. -/
theorem C5_epochs_window_and_rejection (raw : Raw) (events : List (Nat × ℚ × ℚ)) :
    (∀ ep ∈ mkEpochs raw events tmin tmax reject,
        exceedsReject raw.meta.ch_types reject ep = false ∧
        ∃ e ∈ events, sliceEpoch raw tmin tmax e.1 e.2.2 = some ep) ∧
    (∀ e ∈ events, ∀ ep, sliceEpoch raw tmin tmax e.1 e.2.2 = some ep →
        exceedsReject raw.meta.ch_types reject ep = true →
        ep ∉ mkEpochs raw events tmin tmax reject) := by
  constructor
  · intro ep hep
    rw [mkEpochs, List.mem_filter] at hep
    obtain ⟨hmem, hkeep⟩ := hep
    rw [List.mem_filterMap] at hmem
    obtain ⟨e, he, hslice⟩ := hmem
    refine ⟨?_, e, he, hslice⟩
    simpa using hkeep
  · intro e he ep hslice hexc hmem
    rw [mkEpochs, List.mem_filter] at hmem
    have hkeep := hmem.2
    rw [hexc] at hkeep
    simp at hkeep

/-- Evaluation: the slice around the single event of `c5Raw` is `c5Ep`. -/
theorem c5_slice_eval : sliceEpoch c5Raw tmin tmax 2 2 = some c5Ep := by
  rw [sliceEpoch]
  norm_num [c5Raw, round_eq]
  decide

/-- Evaluation: `c5Ep` stays below the rejection thresholds. -/
theorem c5_reject_eval : exceedsReject c5Raw.meta.ch_types reject c5Ep = false := by
  rw [exceedsReject]
  norm_num [c5Raw, c5Ep, reject, ptp, List.range, List.any, List.replicate, List.lookup]
  decide

/-- Evaluation: the epochs collection of `c5Raw` is exactly `[c5Ep]`. -/
theorem c5_epochs_eval : mkEpochs c5Raw c5Events tmin tmax reject = [c5Ep] := by
  rw [mkEpochs]
  simp [c5Events, c5_slice_eval, c5_reject_eval]

/-- Witness for C5: the concrete epoch the script keeps for the single
event is within the rejection thresholds and is the `[-2, 10]` second slice
around that event. -/
theorem C5_witness :
    c5Ep ∈ mkEpochs c5Raw c5Events tmin tmax reject ∧
    (exceedsReject c5Raw.meta.ch_types reject c5Ep = false ∧
      ∃ e ∈ c5Events, sliceEpoch c5Raw tmin tmax e.1 e.2.2 = some c5Ep) :=
  ⟨by rw [c5_epochs_eval]; exact List.mem_singleton.mpr rfl,
   (C5_epochs_window_and_rejection c5Raw c5Events).1 c5Ep
     (by rw [c5_epochs_eval]; exact List.mem_singleton.mpr rfl)⟩

/-- C6: the evoked value is the pointwise average of the epochs of the one
condition `'Biological'` (event code 2): appending an epoch of any other
condition leaves it unchanged, and it equals the average of exactly the
`Biological` epochs. -/
theorem C6_evoked_only_biological (eps : List Epoch) (ep : Epoch)
    (h : ep.cond ≠ biologicalCode) :
    evokedOf (eps ++ [ep]) = evokedOf eps ∧
    evokedOf eps = avgEpochs (selectCond eps biologicalCode) := by
  refine ⟨?_, rfl⟩
  unfold evokedOf selectCond
  rw [List.filter_append]
  simp [h]

/-- Witness for C6: appending a `Rotation` epoch (code 4) does not change
the evoked average. -/
theorem C6_witness :
    c6Extra.cond ≠ biologicalCode ∧
    (evokedOf (c6Eps ++ [c6Extra]) = evokedOf c6Eps ∧
      evokedOf c6Eps = avgEpochs (selectCond c6Eps biologicalCode)) :=
  ⟨by decide, C6_evoked_only_biological c6Eps c6Extra (by decide)⟩

/-- Running a sequence whose prefix succeeds and whose next operation
raises `e` yields exactly `e`: the error monad has no handler to intercept
it. -/
theorem runOps_prefix_error (sem : Op → Except String Unit) (o : Op) (e : String)
    (post : List Op) :
    ∀ pre : List Op, (∀ p ∈ pre, sem p = Except.ok ()) →
      sem o = Except.error e → runOps sem (pre ++ o :: post) = Except.error e := by
  intro pre
  induction pre with
  | nil =>
      intro _ ho
      simp [runOps, ho]
  | cons p rest ih =>
      intro hpre ho
      have hp : sem p = Except.ok () := hpre p (List.mem_cons_self p rest)
      have hrest : ∀ q ∈ rest, sem q = Except.ok () :=
        fun q hq => hpre q (List.mem_cons_of_mem p hq)
      simp only [List.cons_append, runOps, hp]
      exact ih hrest ho

/-- C8: the script intercepts or translates no error.  For every library
semantics, however the module's trace is split into a succeeding prefix, a
first failing call and a remainder, the error of the failing call
propagates unchanged out of the whole run. -/
theorem C8_errors_propagate (sem : Op → Except String Unit)
    (pre post : List Op) (o : Op) (e : String)
    (hsplit : scriptTrace = pre ++ o :: post)
    (hpre : ∀ p ∈ pre, sem p = Except.ok ())
    (ho : sem o = Except.error e) :
    runOps sem scriptTrace = Except.error e := by
  rw [hsplit]
  exact runOps_prefix_error sem o e post pre hpre ho

/-- Witness for C8: a semantics in which the very first call, the array
load, raises `FileNotFoundError`; the run reports exactly that error. -/
theorem C8_witness :
    failSem (Op.loadArray "/home/matteo/raw_ndarray.npy") = Except.error "FileNotFoundError" ∧
    runOps failSem scriptTrace = Except.error "FileNotFoundError" :=
  ⟨rfl,
  C8_errors_propagate failSem []
    [Op.buildMetadata, Op.constructRecording, Op.detectEvents, Op.plot,
     Op.bandpassFilter, Op.plot, Op.plot, Op.extractEpochs, Op.plot,
     Op.averageCondition, Op.plot]
    (Op.loadArray "/home/matteo/raw_ndarray.npy") "FileNotFoundError"
    (by decide) (by intro p hp; cases hp) rfl⟩

/-- Two Boolean predicates agreeing on a list give the same `any`. -/
theorem list_any_agree {α : Type} (f g : α → Bool) :
    ∀ l : List α, (∀ x ∈ l, f x = g x) → l.any f = l.any g := by
  intro l
  induction l with
  | nil => intro _; rfl
  | cons a t ih =>
      intro h
      simp only [List.any_cons, h a (List.mem_cons_self a t),
        ih (fun x hx => h x (List.mem_cons_of_mem a hx))]

/-- C9: the reject mapping of line 114 holds thresholds for exactly the
channel types `hbo` and `hbr`, so the stimulus channel's amplitude never
decides a rejection: two epochs of equal channel count agreeing on every
non-`stim` channel — however much their `stim` channels differ — receive
the same rejection verdict. -/
theorem C9_reject_ignores_stim (types : List String) (ep ep2 : Epoch)
    (hlen : ep.data.length = ep2.data.length)
    (hagree : ∀ i : Nat, types.getD i "" ≠ "stim" →
        ep.data.getD i [] = ep2.data.getD i []) :
    reject.map Prod.fst = ["hbo", "hbr"] ∧
    exceedsReject types reject ep = exceedsReject types reject ep2 := by
  refine ⟨rfl, ?_⟩
  unfold exceedsReject
  rw [hlen]
  apply list_any_agree
  intro i _
  by_cases htype : types.getD i "" = "stim"
  · rw [htype]
    rfl
  · rw [hagree i htype]

/-- Witness for C9: the two concrete epochs differ only on the `stim`
channel and receive the same verdict. -/
theorem C9_witness :
    c9Ep1.data.length = c9Ep2.data.length ∧
    (reject.map Prod.fst = ["hbo", "hbr"] ∧
      exceedsReject ["hbo", "stim"] reject c9Ep1 = exceedsReject ["hbo", "stim"] reject c9Ep2) :=
  ⟨by decide,
   C9_reject_ignores_stim ["hbo", "stim"] c9Ep1 c9Ep2 (by decide)
    (by
      intro i hi
      match i with
      | 0 => rfl
      | 1 => exact absurd rfl hi
      | n + 2 => rfl)⟩

/-- C10: event detection runs before the filter and the filter mutates
`raw_data` in place.  Whatever the filesystem `fs` and the library's filter
`flt`, after the module body runs: the `events` variable holds the events
table of the unfiltered recording (the filter call left it unchanged);
`raw_data` holds the filtered recording; and `epochs` (hence everything
after it) was built from the filtered data at those pre-filter event
positions. -/
theorem C10_events_prefilter_data_postfilter
    (fs : String → List (List ℚ)) (flt : ℚ → ℚ → Raw → Raw) :
    getVar (execList fs flt [] script) "events" =
      Value.eventsVal
        (find_events { meta := info, data := fs "/home/matteo/raw_ndarray.npy" } "Events") ∧
    getVar (execList fs flt [] script) "raw_data" =
      Value.rawVal
        (flt l_freq h_freq { meta := info, data := fs "/home/matteo/raw_ndarray.npy" }) ∧
    getVar (execList fs flt [] script) "epochs" =
      Value.epochsVal
        (mkEpochs
          (flt l_freq h_freq { meta := info, data := fs "/home/matteo/raw_ndarray.npy" })
          (find_events { meta := info, data := fs "/home/matteo/raw_ndarray.npy" } "Events")
          tmin tmax reject) := by
  refine ⟨?_, ?_, ?_⟩ <;> rfl

/-- Witness for C10 at a concrete filesystem and filter: after the run the
`events` variable holds the events table of the unfiltered recording. -/
theorem C10_witness :
    getVar (execList c10fs c10flt [] script) "events" =
      Value.eventsVal
        (find_events { meta := info, data := c10fs "/home/matteo/raw_ndarray.npy" } "Events") :=
  (C10_events_prefilter_data_postfilter c10fs c10flt).1

end FNIRS

